import Mathlib

/-!
Verification of the ConvoTrack retrieval-and-answer-synthesis pipeline and
its React chat UI.  The frontend definitions are shallow embeddings of
`frontend/src/App.jsx` and of the legacy UI variant shipped in the
repository; backend components (chunking, intent router, confidence
heuristic, source assembly, orchestrator) are not present as source files
in the repository snapshot, so they are modelled from the specification,
as marked on each definition.
-/

namespace ConvoTrack

/-- Strip whitespace characters from both ends of a character list. -/
def trimChars (s : List Char) : List Char :=
  ((s.dropWhile Char.isWhitespace).reverse.dropWhile Char.isWhitespace).reverse

/-- Embedding of the JavaScript `String.prototype.trim` (and of the
analogous Python strip used by the backend): whitespace removed from both
ends. -/
def jsTrim (s : String) : String := ⟨trimChars s.data⟩

/-- Embedding of case lowering on a string, character by character. -/
def lowerString (s : String) : String := ⟨s.data.map Char.toLower⟩

/-- One entry of the `analysisTypes` configuration array in
`frontend/src/App.jsx` (icon components are represented by their names). -/
structure AnalysisEntry where
  id : String
  name : String
  icon : String
  color : String
  lightColor : String
deriving DecidableEq, Repr

/-- The `analysisTypes` configuration list of `frontend/src/App.jsx`
(lines 41 to 59). -/
def analysisTypes : List AnalysisEntry :=
  [ ⟨"default", "General Analysis", "Brain", "from-gray-500 to-gray-600", "bg-gray-50 text-gray-700"⟩,
    ⟨"strategic", "Strategic Analysis", "Target", "from-blue-500 to-blue-600", "bg-blue-50 text-blue-700"⟩,
    ⟨"trends", "Trend Analysis", "TrendingUp", "from-green-500 to-green-600", "bg-green-50 text-green-700"⟩,
    ⟨"comparative", "Comparative Analysis", "BarChart3", "from-purple-500 to-purple-600", "bg-purple-50 text-purple-700"⟩,
    ⟨"executive", "Executive Summary", "FileText", "from-orange-500 to-orange-600", "bg-orange-50 text-orange-700"⟩ ]

/-- The lookup `analysisTypes.find((t) => t.id === response.data.analysis_type) || analysisTypes[0]`
performed in `handleInputSubmit` (App.jsx line 101). -/
def analysisTypeFor (v : String) : AnalysisEntry :=
  (analysisTypes.find? (fun t => t.id = v)).getD
    (analysisTypes.headD ⟨"", "", "", "", ""⟩)

/-- JSON body of a POST to the `/ask` endpoint; `analysis_type = none`
means the field is absent from the body. -/
structure AskRequest where
  question : String
  analysis_type : Option String
deriving DecidableEq, Repr

/-- A citation entry of the `/ask` response as consumed by the UI;
`url = none` models an absent url field. -/
structure Source where
  content : String
  url : Option String
  article_number : String
deriving DecidableEq, Repr

/-- The JSON payload of a successful `/ask` response as consumed by the UI. -/
structure AskResponse where
  question : String
  answer : String
  sources : List Source
  agent_type : String
  confidence : String
  analysis_type : String
deriving DecidableEq, Repr

/-- Kind tag of a chat message in the UI state. -/
inductive MessageType
  | user
  | bot
  | error
deriving DecidableEq, Repr

/-- A chat message object built by the App.jsx handlers.  Fields that a
given message kind does not carry in the JavaScript object are modelled by
an empty list or `none`. -/
structure Message where
  id : Nat
  type : MessageType
  content : String
  sources : List Source
  confidence : Option String
  analysisType : Option AnalysisEntry
  timestamp : Nat
deriving DecidableEq, Repr

/-- One group of the citation history sidebar state in App.jsx. -/
structure CitationGroup where
  query : String
  sources : List Source
deriving DecidableEq, Repr

/-- The React state of the current App component (`frontend/src/App.jsx`)
that the submit handler reads or writes. -/
structure AppState where
  messages : List Message
  inputValue : String
  isLoading : Bool
  citationHistory : List CitationGroup
  isSidebarOpen : Bool
  expandedSource : Option (Nat × Nat)
deriving DecidableEq, Repr

/-- The error message text hard-coded in App.jsx. -/
def appErrorText : String :=
  "Sorry, I encountered an error. Please check the API connection or try your question again."

/-- Shallow embedding of `handleInputSubmit` in `frontend/src/App.jsx`
(lines 80 to 142).  `now` stands for `Date.now()`, `width` for
`window.innerWidth`, and `resp` for the outcome of the awaited
`axios.post`.  The returned list collects the HTTP request bodies issued
to `/ask` during the call. -/
def handleInputSubmit (s : AppState) (now width : Nat)
    (resp : Except Unit AskResponse) : AppState × List AskRequest :=
  if jsTrim s.inputValue = "" ∨ s.isLoading then (s, [])
  else
    let userMessage : Message := ⟨now, .user, s.inputValue, [], none, none, now⟩
    let currentInput := s.inputValue
    let s1 : AppState :=
      { s with messages := s.messages ++ [userMessage], inputValue := "", isLoading := true }
    match resp with
    | .ok data =>
        let analysisType := analysisTypeFor data.analysis_type
        let responseSources := data.sources
        let botMessage : Message :=
          ⟨now + 1, .bot, data.answer, responseSources, some data.confidence, some analysisType, now⟩
        let s2 : AppState := { s1 with messages := s1.messages ++ [botMessage] }
        let s3 : AppState :=
          if responseSources.length > 0 then
            { s2 with
              citationHistory := s2.citationHistory ++ [⟨currentInput, responseSources⟩],
              expandedSource := some (s.citationHistory.length, 0),
              isSidebarOpen := if width < 1024 then true else s2.isSidebarOpen }
          else s2
        ({ s3 with isLoading := false }, [⟨currentInput, none⟩])
    | .error _ =>
        let errorMessage : Message := ⟨now + 1, .error, appErrorText, [], none, none, now⟩
        ({ s1 with messages := s1.messages ++ [errorMessage], isLoading := false },
         [⟨currentInput, none⟩])

/-- One entry of the `analysisTypes` array of the legacy UI variant
(`src/unnamed/part_000`, lines 42 to 75), which also carries a
description. -/
structure LegacyEntry where
  id : String
  name : String
  description : String
  icon : String
  color : String
  lightColor : String
deriving DecidableEq, Repr

/-- The `analysisTypes` configuration of the legacy UI variant. -/
def legacyAnalysisTypes : List LegacyEntry :=
  [ ⟨"strategic", "Strategic Analysis", "Long-term planning and positioning insights", "Target", "from-blue-500 to-blue-600", "bg-blue-50 text-blue-700"⟩,
    ⟨"trends", "Trend Analysis", "Market trends and future outlook analysis", "TrendingUp", "from-green-500 to-green-600", "bg-green-50 text-green-700"⟩,
    ⟨"comparative", "Comparative Analysis", "Side-by-side comparison with benchmarks", "BarChart3", "from-purple-500 to-purple-600", "bg-purple-50 text-purple-700"⟩,
    ⟨"executive", "Executive Summary", "C-level decision making insights", "FileText", "from-orange-500 to-orange-600", "bg-orange-50 text-orange-700"⟩ ]

/-- A chat message of the legacy UI variant; its user messages carry the
selected analysis type. -/
structure LegacyMessage where
  id : Nat
  type : MessageType
  content : String
  sources : List Source
  confidence : Option String
  analysisType : Option LegacyEntry
  timestamp : Nat
deriving DecidableEq, Repr

/-- React state of the legacy UI variant read or written by
`handleAnalysisTypeSelect`. -/
structure LegacyState where
  messages : List LegacyMessage
  inputValue : String
  isLoading : Bool
  showAnalysisOptions : Bool
  selectedMessageSources : List Source
  isSidebarOpen : Bool
  expandedSourceIndex : Option Nat
deriving DecidableEq, Repr

/-- The error message text hard-coded in the legacy UI variant. -/
def legacyErrorText : String :=
  "Sorry, I encountered an error. Please check the connection or try again."

/-- Shallow embedding of `handleAnalysisTypeSelect` in the legacy UI
variant (`src/unnamed/part_000`, lines 108 to 164).  The returned list
collects the HTTP request bodies issued to `/ask`: note that the body
includes the user-selected `analysis_type`. -/
def handleAnalysisTypeSelect (s : LegacyState) (analysisType : LegacyEntry)
    (now width : Nat) (resp : Except Unit AskResponse) :
    LegacyState × List AskRequest :=
  if jsTrim s.inputValue = "" then (s, [])
  else
    let userMessage : LegacyMessage :=
      ⟨now, .user, s.inputValue, [], none, some analysisType, now⟩
    let currentInput := s.inputValue
    let s1 : LegacyState :=
      { s with messages := s.messages ++ [userMessage], inputValue := "",
               showAnalysisOptions := false, isLoading := true }
    match resp with
    | .ok data =>
        let responseSources := data.sources
        let botMessage : LegacyMessage :=
          ⟨now + 1, .bot, data.answer, responseSources, some data.confidence, some analysisType, now⟩
        let s2 : LegacyState := { s1 with messages := s1.messages ++ [botMessage] }
        let s3 : LegacyState :=
          if responseSources.length > 0 then
            { s2 with selectedMessageSources := responseSources,
                      expandedSourceIndex := none,
                      isSidebarOpen := if width < 1024 then true else s2.isSidebarOpen }
          else s2
        ({ s3 with isLoading := false }, [⟨currentInput, some analysisType.id⟩])
    | .error _ =>
        let errorMessage : LegacyMessage := ⟨now + 1, .error, legacyErrorText, [], none, none, now⟩
        ({ s1 with messages := s1.messages ++ [errorMessage], isLoading := false },
         [⟨currentInput, some analysisType.id⟩])

/-- Label shown for a citation in the App.jsx sidebar (line 204):
`source.url || "Internal Knowledge Base"`; the empty string is falsy in
JavaScript. -/
def citationLabel (url : Option String) : String :=
  match url with
  | none => "Internal Knowledge Base"
  | some u => if u = "" then "Internal Knowledge Base" else u

/-- Whether the App.jsx sidebar renders the external link anchor for a
citation (line 225): `source.url && source.url !== "Unknown"`. -/
def rendersExternalLink (url : Option String) : Bool :=
  match url with
  | none => false
  | some u => decide (u ≠ "") && decide (u ≠ "Unknown")

/-- Modelled from the spec: the `AnalysisMode` enumeration of section 3
(the backend source is not part of the repository snapshot). -/
inductive AnalysisMode
  | general
  | strategic
  | trends
  | comparative
  | executive
deriving DecidableEq, Repr

/-- Modelled from the spec: the Intent Router completion parsing of
section 4.2 — trim the completion, compare case-insensitively against the
five known mode keywords, and fall back deterministically to `general`
when nothing matches.  Total by construction, so classification never
raises. -/
def parseModeKeyword (completion : String) : AnalysisMode :=
  let t := lowerString (jsTrim completion)
  if t = "general" then .general
  else if t = "strategic" then .strategic
  else if t = "trends" then .trends
  else if t = "comparative" then .comparative
  else if t = "executive" then .executive
  else .general

/-- Modelled from the spec: a Document of the Corpus Store (section 3);
its text is represented as a list of characters. -/
structure Document where
  id : Nat
  url : Option String
  raw_text : List Char
deriving DecidableEq, Repr

/-- Modelled from the spec: a Chunk (section 3) with its text, originating
document id, source url and position among the chunks of its document. -/
structure Chunk where
  text : List Char
  source_document_id : Nat
  source_url : Option String
  chunk_index : Nat
deriving DecidableEq, Repr

/-- Modelled from the spec: the fixed window and overlap sizes of the
chunking policy (section 3 and 4.1). -/
def chunkSize : Nat := 1000

/-- Modelled from the spec: the fixed overlap between consecutive chunks
of a document. -/
def chunkOverlap : Nat := 200

/-- Fuel-indexed worker for `chunkWindows`; the fuel equals the text
length at the top-level call and is never exhausted before the base case,
because each step removes 800 characters while spending one unit. -/
def chunkWindowsGo : Nat → List Char → List (List Char)
  | 0, text => [text]
  | fuel + 1, text =>
      if text.length ≤ chunkSize then [text]
      else text.take chunkSize :: chunkWindowsGo fuel (text.drop (chunkSize - chunkOverlap))

/-- Modelled from the spec: split a document text into windows of at most
1000 characters such that consecutive windows share exactly 200
characters (so the stride is 800); the last window may be shorter than
1000 characters. -/
def chunkWindows (text : List Char) : List (List Char) :=
  chunkWindowsGo text.length text

/-- Modelled from the spec: split one document into indexed chunks. -/
def chunkDocument (d : Document) : List Chunk :=
  (chunkWindows d.raw_text).enum.map (fun p => ⟨p.2, d.id, d.url, p.1⟩)

/-- Modelled from the spec: `build_index` of section 4.1 — when the index
already holds entries and `force_rebuild` is false, the build is a no-op
returning the existing index; otherwise every document is chunked and the
resulting chunks replace the prior content. -/
def build_index (existing : List Chunk) (documents : List Document)
    (force_rebuild : Bool) : List Chunk :=
  if existing.length ≠ 0 ∧ force_rebuild = false then existing
  else (documents.map chunkDocument).flatten

/-- Modelled from the spec: the low / medium / high confidence label. -/
inductive Confidence
  | low
  | medium
  | high
deriving DecidableEq, Repr

/-- Numeric rank of a confidence label in the order low < medium < high. -/
def Confidence.rank : Confidence → Nat
  | .low => 0
  | .medium => 1
  | .high => 2

/-- Modelled from the spec: the top similarity score of a RetrievalResult,
which is ordered by descending similarity, so the top score is the score
of the first pair; an empty result has no evidence and scores zero. -/
def topScore (r : List (Chunk × ℚ)) : ℚ :=
  match r with
  | [] => 0
  | p :: _ => p.2

/-- Modelled from the spec: the confidence heuristic of section 4.4 —
`high` when at least 3 chunks were retrieved and the top similarity is
above the high threshold, `medium` when at least 1 chunk is above the
lower threshold, `low` otherwise.  The thresholds are
implementation-tunable, so they are parameters here. -/
def confidenceOf (highThreshold lowThreshold : ℚ) (r : List (Chunk × ℚ)) : Confidence :=
  if 3 ≤ r.length ∧ highThreshold < topScore r then .high
  else if 1 ≤ r.length ∧ lowThreshold < topScore r then .medium
  else .low

/-- Modelled from the spec: concrete default value for the high
similarity threshold (only monotonicity is contractual). -/
def highThresholdDefault : ℚ := 3 / 4

/-- Modelled from the spec: concrete default value for the lower
similarity threshold. -/
def lowThresholdDefault : ℚ := 1 / 2

/-- Modelled from the spec: one entry of the deduplicated source list of
an AnswerPayload. -/
structure SourceItem where
  content : List Char
  url : Option String
  article_number : Nat
deriving DecidableEq, Repr

/-- The source entry built from one retrieved chunk. -/
def sourceOfChunk (c : Chunk) : SourceItem :=
  ⟨c.text, c.source_url, c.source_document_id⟩

/-- Worker for `assembleSources`, carrying the set of source URLs already
emitted. -/
def assembleSourcesGo (seen : List String) : List Chunk → List SourceItem
  | [] => []
  | c :: rest =>
      match c.source_url with
      | none => sourceOfChunk c :: assembleSourcesGo seen rest
      | some u =>
          if u ∈ seen then assembleSourcesGo seen rest
          else sourceOfChunk c :: assembleSourcesGo (u :: seen) rest

/-- Modelled from the spec: source assembly of section 4.4 — deduplicate
chunks that originate from the same source URL, keeping the first
occurrence position and content snippet; a chunk lacking a URL is kept as
an internal, no-link source rather than omitted. -/
def assembleSources (chunks : List Chunk) : List SourceItem :=
  assembleSourcesGo [] chunks

/-- Modelled from the spec: the error taxonomy of section 7. -/
inductive AskError
  | validationError
  | notReadyError
  | upstreamServiceError
deriving DecidableEq, Repr

/-- Modelled from the spec: HTTP status assigned to each error at the
endpoint (section 6). -/
def statusOf : AskError → Nat
  | .validationError => 400
  | .notReadyError => 503
  | .upstreamServiceError => 500

/-- Modelled from the spec: one external service call issued during a
request, recorded for the call trace. -/
inductive ExtCall
  | routerLLM (prompt : String)
  | embed (text : String)
  | indexQuery (k : Nat)
  | synthesisLLM (prompt : String)
deriving DecidableEq, Repr

/-- Modelled from the spec: the black-box collaborators of section 6 —
router LLM completion, embedding service, vector index top-k query, and
synthesis LLM. -/
structure Oracles where
  routerCompletion : String → String
  embedText : String → List ℚ
  queryIndex : List ℚ → Nat → List (Chunk × ℚ)
  synthesizeAnswer : String → AnalysisMode → List (Chunk × ℚ) → String

/-- Modelled from the spec: the final response entity of section 3. -/
structure AnswerPayload where
  question : String
  answer : String
  sources : List SourceItem
  analysis_mode : AnalysisMode
  confidence : Confidence

/-- Modelled from the spec: the `ask` operation of the Pipeline
Orchestrator (section 4.5) — reject empty or whitespace-only questions
before any external call, otherwise sequence Intent Router, Retriever and
Analysis Synthesizer.  The second component is the ordered trace of
external calls issued. -/
def ask (o : Oracles) (question : String) :
    Except AskError AnswerPayload × List ExtCall :=
  if jsTrim question = "" then (.error .validationError, [])
  else
    let mode := parseModeKeyword (o.routerCompletion question)
    let queryVector := o.embedText question
    let results := o.queryIndex queryVector 15
    let answer := o.synthesizeAnswer question mode results
    let payload : AnswerPayload :=
      ⟨question, answer, assembleSources (results.map Prod.fst), mode,
       confidenceOf highThresholdDefault lowThresholdDefault results⟩
    (.ok payload,
     [.routerLLM question, .embed question, .indexQuery 15, .synthesisLLM question])

/-! Helper lemmas shared by several claims. -/

/-- The fuel-indexed chunk worker returns a single window for any text of
at most 1000 characters. -/
theorem chunkWindowsGo_base (fuel : Nat) (text : List Char)
    (h : text.length ≤ chunkSize) : chunkWindowsGo fuel text = [text] := by
  cases fuel <;> simp [chunkWindowsGo, h]

/-- The fuel-indexed chunk worker takes a 1000-character window and
recurses with stride 800 on longer texts. -/
theorem chunkWindowsGo_step (fuel : Nat) (text : List Char)
    (h : ¬ text.length ≤ chunkSize) :
    chunkWindowsGo (fuel + 1) text =
      text.take chunkSize :: chunkWindowsGo fuel (text.drop (chunkSize - chunkOverlap)) := by
  simp [chunkWindowsGo, h]

/-- A 1500-character text is chunked into its first 1000 characters and
the 700 characters from position 800 on. -/
theorem chunkWindows_len1500 (text : List Char) (h : text.length = 1500) :
    chunkWindows text = [text.take 1000, text.drop 800] := by
  unfold chunkWindows
  rw [h, show (1500 : Nat) = 1499 + 1 from rfl,
      chunkWindowsGo_step 1499 text (by simp [chunkSize, h]),
      chunkWindowsGo_base _ _ (by simp [chunkSize, chunkOverlap, h])]
  rfl

/-- Building into an empty index never takes the idempotent-skip branch:
the result is the concatenation of the chunks of every document. -/
theorem build_index_empty (documents : List Document) (b : Bool) :
    build_index [] documents b = (documents.map chunkDocument).flatten := by
  unfold build_index
  simp

/-- Building an empty index from one 1500-character document yields
exactly the two expected chunks. -/
theorem build_index_single_1500 (text : List Char) (u : String)
    (h : text.length = 1500) :
    build_index [] [⟨1, some u, text⟩] true =
      [⟨text.take 1000, 1, some u, 0⟩, ⟨text.drop 800, 1, some u, 1⟩] := by
  rw [build_index_empty]
  simp only [List.map_cons, List.map_nil, List.flatten_cons, List.flatten_nil,
    List.append_nil]
  simp only [chunkDocument]
  rw [chunkWindows_len1500 text h]
  rfl

/-- A chunk lacking a source URL is kept by source assembly, for any set
of already-seen URLs. -/
theorem assembleSourcesGo_mem_of_none (seen : List String) (l : List Chunk)
    (c : Chunk) (hmem : c ∈ l) (hurl : c.source_url = none) :
    sourceOfChunk c ∈ assembleSourcesGo seen l := by
  induction l generalizing seen with
  | nil => cases hmem
  | cons a rest ih =>
      rcases List.mem_cons.mp hmem with rfl | hmem
      · simp [assembleSourcesGo, hurl]
      · cases ha : a.source_url with
        | none =>
            simp only [assembleSourcesGo, ha, List.mem_cons]
            exact Or.inr (ih seen hmem)
        | some u =>
            by_cases hu : u ∈ seen
            · simp only [assembleSourcesGo, ha, if_pos hu]
              exact ih seen hmem
            · simp only [assembleSourcesGo, ha, if_neg hu, List.mem_cons]
              exact Or.inr (ih (u :: seen) hmem)

/-! Claims. -/

/-- Claim C1, counterexample: the legacy UI variant
(`src/unnamed/part_000`) does send an `analysis_type` field to `/ask`,
so the claim that the client never sends one fails on this repository:
selecting the Strategic entry issues a request body whose
`analysis_type` is present. -/
theorem legacy_client_sends_analysis_type :
    (handleAnalysisTypeSelect
        ⟨[], "What are beauty trends?", false, true, [], false, none⟩
        ⟨"strategic", "Strategic Analysis", "Long-term planning and positioning insights",
          "Target", "from-blue-500 to-blue-600", "bg-blue-50 text-blue-700"⟩
        0 1200 (.error ())).2 =
      [⟨"What are beauty trends?", some "strategic"⟩] ∧
    ((handleAnalysisTypeSelect
        ⟨[], "What are beauty trends?", false, true, [], false, none⟩
        ⟨"strategic", "Strategic Analysis", "Long-term planning and positioning insights",
          "Target", "from-blue-500 to-blue-600", "bg-blue-50 text-blue-700"⟩
        0 1200 (.error ())).2.map AskRequest.analysis_type ≠ [none]) := by
  constructor
  · decide
  · decide

/-- Claim C1 (amended): in the current chat UI (`frontend/src/App.jsx`),
every question submitted through `handleInputSubmit` issues exactly one
request to `/ask` whose body holds only the question, with no
`analysis_type` field; the legacy UI variant, by contrast, sends the
user-selected analysis type. -/
theorem current_client_sends_only_question (s : AppState) (now width : Nat)
    (resp : Except Unit AskResponse)
    (hq : ¬ jsTrim s.inputValue = "") (hl : s.isLoading = false) :
    (handleInputSubmit s now width resp).2 = [⟨s.inputValue, none⟩] := by
  have hcond : ¬ (jsTrim s.inputValue = "" ∨ s.isLoading = true) := by
    simp [hq, hl]
  unfold handleInputSubmit
  rw [if_neg hcond]
  cases resp <;> rfl

/-- Witness for claim C1 at a concrete state. -/
theorem current_client_sends_only_question_witness :
    ¬ jsTrim "Hi" = "" ∧
    (handleInputSubmit ⟨[], "Hi", false, [], false, none⟩ 5 800 (.error ())).2 =
      [⟨"Hi", none⟩] :=
  ⟨by decide,
   current_client_sends_only_question ⟨[], "Hi", false, [], false, none⟩ 5 800
     (.error ()) (by decide) rfl⟩

/-- Claim C2, counterexample: the `analysisTypes` configuration of the
chat UI has no entry whose id is `general` (its general entry has id
`default`), so a response with `analysis_type` equal to `general` is
rendered through the fallback to the first entry, contrary to the
claim. -/
theorem no_general_entry_fallback_used :
    analysisTypes.find? (fun t => t.id = "general") = none ∧
    analysisTypeFor "general" = analysisTypes.headD ⟨"", "", "", "", ""⟩ ∧
    (analysisTypeFor "general").id = "default" := by
  refine ⟨by decide, by decide, by decide⟩

/-- Claim C2 (amended): the configuration has matching entries for the
values strategic, trends, comparative and executive, but not for general;
a response with `analysis_type` general is rendered via the fallback to
the first entry, whose id is `default` and whose label is General
Analysis. -/
theorem analysis_type_chip_lookup :
    (analysisTypes.find? (fun t => t.id = "strategic")).map AnalysisEntry.id =
      some "strategic" ∧
    (analysisTypes.find? (fun t => t.id = "trends")).map AnalysisEntry.id =
      some "trends" ∧
    (analysisTypes.find? (fun t => t.id = "comparative")).map AnalysisEntry.id =
      some "comparative" ∧
    (analysisTypes.find? (fun t => t.id = "executive")).map AnalysisEntry.id =
      some "executive" ∧
    analysisTypes.find? (fun t => t.id = "general") = none ∧
    analysisTypeFor "general" = analysisTypes.headD ⟨"", "", "", "", ""⟩ ∧
    (analysisTypeFor "general").name = "General Analysis" := by
  refine ⟨by decide, by decide, by decide, by decide, by decide, by decide, by decide⟩

/-- Claim C3, counterexample: for a corpus of one document of 1500
characters, `build_index` with `force_rebuild` produces two chunks of
1000 and 700 characters — the second chunk is the 500-character remainder
preceded by the 200-character overlap, so it is not a 500-character
chunk as the claim states. -/
theorem chunk_1500_not_500 :
    ((build_index [] [⟨1, some "https://x/case1", List.replicate 1500 'a'⟩] true).map
        (fun c => c.text.length)) = [1000, 700] ∧
    ((build_index [] [⟨1, some "https://x/case1", List.replicate 1500 'a'⟩] true).map
        (fun c => c.text.length)) ≠ [1000, 500] := by
  have he : ((build_index [] [⟨1, some "https://x/case1", List.replicate 1500 'a'⟩] true).map
      (fun c => c.text.length)) = [1000, 700] := by
    rw [build_index_single_1500 _ _ (by rw [List.length_replicate])]
    simp only [List.map_cons, List.map_nil, List.length_take, List.length_drop,
      List.length_replicate]
    norm_num
  exact ⟨he, by rw [he]; decide⟩

/-- Claim C3 (amended): chunking follows the 1000-character window with
200-character overlap policy, so for a corpus of one document of length
1500, `build_index` with `force_rebuild` yields exactly 2 chunks: the
first 1000 characters, and a second chunk of 700 characters (the
500-character remainder plus the 200-character overlap) whose first 200
characters equal the last 200 characters of the first chunk. -/
theorem build_index_1500 (text : List Char) (u : String)
    (h : text.length = 1500) :
    build_index [] [⟨1, some u, text⟩] true =
      [⟨text.take 1000, 1, some u, 0⟩, ⟨text.drop 800, 1, some u, 1⟩] ∧
    (build_index [] [⟨1, some u, text⟩] true).length = 2 ∧
    (text.take 1000).length = 1000 ∧
    (text.drop 800).length = 700 ∧
    (text.take 1000).drop 800 = (text.drop 800).take 200 := by
  have he : build_index [] [⟨1, some u, text⟩] true =
      [⟨text.take 1000, 1, some u, 0⟩, ⟨text.drop 800, 1, some u, 1⟩] :=
    build_index_single_1500 text u h
  refine ⟨he, by rw [he]; rfl, ?_, ?_, ?_⟩
  · simp [List.length_take, h]
  · simp [List.length_drop, h]
  · rw [List.drop_take]

/-- Witness for claim C3 at a concrete 1500-character document. -/
theorem build_index_1500_witness :
    (List.replicate 1500 'a').length = 1500 ∧
    (build_index [] [⟨1, some "https://x/case1", List.replicate 1500 'a'⟩] true =
        [⟨(List.replicate 1500 'a').take 1000, 1, some "https://x/case1", 0⟩,
         ⟨(List.replicate 1500 'a').drop 800, 1, some "https://x/case1", 1⟩] ∧
      (build_index [] [⟨1, some "https://x/case1", List.replicate 1500 'a'⟩] true).length = 2 ∧
      ((List.replicate 1500 'a').take 1000).length = 1000 ∧
      ((List.replicate 1500 'a').drop 800).length = 700 ∧
      ((List.replicate 1500 'a').take 1000).drop 800 =
        ((List.replicate 1500 'a').drop 800).take 200) :=
  ⟨by rw [List.length_replicate],
   build_index_1500 (List.replicate 1500 'a') "https://x/case1"
     (by rw [List.length_replicate])⟩

/-- Claim C4: the confidence heuristic is monotonic — whenever retrieval
A has at least as many chunks and at least as high a top similarity as
retrieval B, the confidence of A is at least that of B in the order
low < medium < high, for any choice of thresholds. -/
theorem confidence_monotone (highT lowT : ℚ) (A B : List (Chunk × ℚ))
    (hn : B.length ≤ A.length) (hs : topScore B ≤ topScore A) :
    (confidenceOf highT lowT B).rank ≤ (confidenceOf highT lowT A).rank := by
  unfold confidenceOf
  by_cases hB1 : 3 ≤ B.length ∧ highT < topScore B
  · have hA1 : 3 ≤ A.length ∧ highT < topScore A :=
      ⟨le_trans hB1.1 hn, lt_of_lt_of_le hB1.2 hs⟩
    rw [if_pos hB1, if_pos hA1]
  · rw [if_neg hB1]
    by_cases hB2 : 1 ≤ B.length ∧ lowT < topScore B
    · have hA2 : 1 ≤ A.length ∧ lowT < topScore A :=
        ⟨le_trans hB2.1 hn, lt_of_lt_of_le hB2.2 hs⟩
      rw [if_pos hB2]
      by_cases hA1 : 3 ≤ A.length ∧ highT < topScore A
      · rw [if_pos hA1]
        decide
      · rw [if_neg hA1, if_pos hA2]
    · rw [if_neg hB2]
      split_ifs <;> simp [Confidence.rank]

/-- Witness for claim C4 at a concrete pair of retrievals. -/
theorem confidence_monotone_witness :
    ([] : List (Chunk × ℚ)).length ≤
      ([(⟨[], 1, none, 0⟩, (9 : ℚ) / 10)] : List (Chunk × ℚ)).length ∧
    topScore [] ≤ topScore [(⟨[], 1, none, 0⟩, (9 : ℚ) / 10)] ∧
    (confidenceOf ((3 : ℚ) / 4) ((1 : ℚ) / 2) []).rank ≤
      (confidenceOf ((3 : ℚ) / 4) ((1 : ℚ) / 2) [(⟨[], 1, none, 0⟩, (9 : ℚ) / 10)]).rank :=
  ⟨by simp, by norm_num [topScore],
   confidence_monotone ((3 : ℚ) / 4) ((1 : ℚ) / 2)
     [(⟨[], 1, none, 0⟩, (9 : ℚ) / 10)] [] (by simp) (by norm_num [topScore])⟩

/-- Claim C5: whenever the router completion, trimmed and lowered, is not
one of the five known mode keywords, classification returns the general
mode; the classifier is a total function, so it never raises. -/
theorem classify_fallback_general (completion : String)
    (h : lowerString (jsTrim completion) ∉
      (["general", "strategic", "trends", "comparative", "executive"] : List String)) :
    parseModeKeyword completion = AnalysisMode.general := by
  simp only [List.mem_cons, List.not_mem_nil, or_false, not_or] at h
  obtain ⟨h1, h2, h3, h4, h5⟩ := h
  simp [parseModeKeyword, h1, h2, h3, h4, h5]

/-- Witness for claim C5 at a concrete unrecognised completion. -/
theorem classify_fallback_general_witness :
    lowerString (jsTrim " Strongly strategic, maybe ") ∉
      (["general", "strategic", "trends", "comparative", "executive"] : List String) ∧
    parseModeKeyword " Strongly strategic, maybe " = AnalysisMode.general :=
  ⟨by decide, classify_fallback_general " Strongly strategic, maybe " (by decide)⟩

/-- Claim C6: source assembly deduplicates by URL keeping first
occurrences in order — three chunks from URLs u1, u1, u2 yield exactly
the two sources of the first and third chunk, in that order, with the
first occurrence content snippet. -/
theorem sources_dedup_by_url (u1 u2 : String) (c1 c2 c3 : Chunk)
    (h1 : c1.source_url = some u1) (h2 : c2.source_url = some u1)
    (h3 : c3.source_url = some u2) (hne : u1 ≠ u2) :
    assembleSources [c1, c2, c3] = [sourceOfChunk c1, sourceOfChunk c3] ∧
    (assembleSources [c1, c2, c3]).length = 2 ∧
    (assembleSources [c1, c2, c3]).map SourceItem.url = [some u1, some u2] := by
  have he : assembleSources [c1, c2, c3] = [sourceOfChunk c1, sourceOfChunk c3] := by
    unfold assembleSources
    simp [assembleSourcesGo, h1, h2, h3, Ne.symm hne]
  refine ⟨he, by rw [he]; rfl, ?_⟩
  rw [he]
  simp [sourceOfChunk, h1, h3]

/-- Witness for claim C6 at three concrete chunks. -/
theorem sources_dedup_by_url_witness :
    (⟨['a'], 1, some "u1", 0⟩ : Chunk).source_url = some "u1" ∧
    (⟨['b'], 1, some "u1", 1⟩ : Chunk).source_url = some "u1" ∧
    (⟨['c'], 2, some "u2", 0⟩ : Chunk).source_url = some "u2" ∧
    ("u1" : String) ≠ "u2" ∧
    (assembleSources [⟨['a'], 1, some "u1", 0⟩, ⟨['b'], 1, some "u1", 1⟩,
        ⟨['c'], 2, some "u2", 0⟩] =
      [sourceOfChunk ⟨['a'], 1, some "u1", 0⟩, sourceOfChunk ⟨['c'], 2, some "u2", 0⟩] ∧
     (assembleSources [⟨['a'], 1, some "u1", 0⟩, ⟨['b'], 1, some "u1", 1⟩,
        ⟨['c'], 2, some "u2", 0⟩]).length = 2 ∧
     (assembleSources [⟨['a'], 1, some "u1", 0⟩, ⟨['b'], 1, some "u1", 1⟩,
        ⟨['c'], 2, some "u2", 0⟩]).map SourceItem.url = [some "u1", some "u2"]) :=
  ⟨rfl, rfl, rfl, by decide,
   sources_dedup_by_url "u1" "u2" _ _ _ rfl rfl rfl (by decide)⟩

/-- Claim C7: an empty or whitespace-only question is rejected by `ask`
with a validation error mapped to HTTP 400, and the trace of external
calls is empty — no LLM, embedding or retrieval call happens before the
rejection. -/
theorem ask_rejects_blank_question (o : Oracles) (q : String)
    (h : jsTrim q = "") :
    ask o q = (.error .validationError, []) ∧
    statusOf .validationError = 400 := by
  constructor
  · unfold ask
    rw [if_pos h]
  · rfl

/-- Witness for claim C7 at the whitespace-only question. -/
theorem ask_rejects_blank_question_witness :
    jsTrim "   " = "" ∧
    (ask ⟨fun _ => "", fun _ => [], fun _ _ => [], fun _ _ _ => ""⟩ "   " =
        (.error .validationError, []) ∧
      statusOf .validationError = 400) :=
  ⟨by decide,
   ask_rejects_blank_question ⟨fun _ => "", fun _ => [], fun _ _ => [], fun _ _ _ => ""⟩
     "   " (by decide)⟩

/-- Claim C8: a retrieved chunk lacking a source URL is still included in
the assembled sources as an internal, no-link entry, and the UI renders
it with the Internal Knowledge Base label and without the external link
anchor. -/
theorem internal_source_kept_and_labeled (chunks : List Chunk) (c : Chunk)
    (hmem : c ∈ chunks) (hurl : c.source_url = none) :
    sourceOfChunk c ∈ assembleSources chunks ∧
    (sourceOfChunk c).url = none ∧
    citationLabel (sourceOfChunk c).url = "Internal Knowledge Base" ∧
    rendersExternalLink (sourceOfChunk c).url = false := by
  refine ⟨assembleSourcesGo_mem_of_none [] chunks c hmem hurl, ?_, ?_, ?_⟩
  · simp [sourceOfChunk, hurl]
  · simp [sourceOfChunk, hurl, citationLabel]
  · simp [sourceOfChunk, hurl, rendersExternalLink]

/-- Witness for claim C8 at a concrete retrieval holding one linked and
one internal chunk. -/
theorem internal_source_kept_and_labeled_witness :
    (⟨['x'], 3, none, 1⟩ : Chunk) ∈
      [⟨['w'], 2, some "u", 0⟩, (⟨['x'], 3, none, 1⟩ : Chunk)] ∧
    (⟨['x'], 3, none, 1⟩ : Chunk).source_url = none ∧
    (sourceOfChunk ⟨['x'], 3, none, 1⟩ ∈
        assembleSources [⟨['w'], 2, some "u", 0⟩, ⟨['x'], 3, none, 1⟩] ∧
      (sourceOfChunk ⟨['x'], 3, none, 1⟩).url = none ∧
      citationLabel (sourceOfChunk ⟨['x'], 3, none, 1⟩).url = "Internal Knowledge Base" ∧
      rendersExternalLink (sourceOfChunk ⟨['x'], 3, none, 1⟩).url = false) :=
  ⟨by decide, rfl,
   internal_source_kept_and_labeled
     [⟨['w'], 2, some "u", 0⟩, ⟨['x'], 3, none, 1⟩] ⟨['x'], 3, none, 1⟩
     (by decide) rfl⟩

/-- Claim C9: when the input trims to the empty string or a request is
already in flight, `handleInputSubmit` issues no HTTP request and leaves
the whole component state — messages, citation history and loading flag
included — unchanged. -/
theorem submit_guard_no_request (s : AppState) (now width : Nat)
    (resp : Except Unit AskResponse)
    (h : jsTrim s.inputValue = "" ∨ s.isLoading = true) :
    handleInputSubmit s now width resp = (s, []) := by
  unfold handleInputSubmit
  rw [if_pos h]

/-- Witness for claim C9 at a whitespace-only input. -/
theorem submit_guard_no_request_witness :
    (jsTrim "  " = "" ∨ (false = true)) ∧
    handleInputSubmit ⟨[], "  ", false, [], false, none⟩ 0 0 (.error ()) =
      (⟨[], "  ", false, [], false, none⟩, []) :=
  ⟨Or.inl (by decide),
   submit_guard_no_request ⟨[], "  ", false, [], false, none⟩ 0 0 (.error ())
     (Or.inl (by decide))⟩

/-- Claim C10: a submission that passes the guard issues exactly one
request, appends exactly one user message followed by exactly one
response message — a bot message on success, an error message on failure —
and resets the loading flag to false on both paths. -/
theorem submit_request_lifecycle (s : AppState) (now width : Nat)
    (resp : Except Unit AskResponse)
    (hq : ¬ jsTrim s.inputValue = "") (hl : s.isLoading = false) :
    (handleInputSubmit s now width resp).2 = [⟨s.inputValue, none⟩] ∧
    (handleInputSubmit s now width resp).1.isLoading = false ∧
    (∀ data, resp = .ok data →
      (handleInputSubmit s now width resp).1.messages =
        s.messages ++ [⟨now, .user, s.inputValue, [], none, none, now⟩,
          ⟨now + 1, .bot, data.answer, data.sources, some data.confidence,
            some (analysisTypeFor data.analysis_type), now⟩]) ∧
    (∀ e, resp = .error e →
      (handleInputSubmit s now width resp).1.messages =
        s.messages ++ [⟨now, .user, s.inputValue, [], none, none, now⟩,
          ⟨now + 1, .error, appErrorText, [], none, none, now⟩]) := by
  have hcond : ¬ (jsTrim s.inputValue = "" ∨ s.isLoading = true) := by
    simp [hq, hl]
  refine ⟨?_, ?_, ?_, ?_⟩
  · unfold handleInputSubmit
    rw [if_neg hcond]
    cases resp <;> rfl
  · unfold handleInputSubmit
    rw [if_neg hcond]
    cases resp <;> rfl
  · intro data hdata
    subst hdata
    by_cases hsrc : data.sources.length > 0 <;>
      simp [handleInputSubmit, if_neg hcond, hsrc]
  · intro e he
    subst he
    unfold handleInputSubmit
    rw [if_neg hcond]
    simp

/-- Witness for claim C10 at a concrete state and successful response. -/
theorem submit_request_lifecycle_witness :
    ¬ jsTrim "Hi" = "" ∧
    ((handleInputSubmit ⟨[], "Hi", false, [], false, none⟩ 7 500
        (.ok ⟨"Hi", "An answer", [], "general_analysis", "low", "general"⟩)).2 =
      [⟨"Hi", none⟩] ∧
     (handleInputSubmit ⟨[], "Hi", false, [], false, none⟩ 7 500
        (.ok ⟨"Hi", "An answer", [], "general_analysis", "low", "general"⟩)).1.isLoading = false ∧
     (∀ data, (.ok ⟨"Hi", "An answer", [], "general_analysis", "low", "general"⟩ :
          Except Unit AskResponse) = .ok data →
       (handleInputSubmit ⟨[], "Hi", false, [], false, none⟩ 7 500
          (.ok ⟨"Hi", "An answer", [], "general_analysis", "low", "general"⟩)).1.messages =
         [] ++ [⟨7, .user, "Hi", [], none, none, 7⟩,
           ⟨8, .bot, data.answer, data.sources, some data.confidence,
             some (analysisTypeFor data.analysis_type), 7⟩]) ∧
     (∀ e, (.ok ⟨"Hi", "An answer", [], "general_analysis", "low", "general"⟩ :
          Except Unit AskResponse) = .error e →
       (handleInputSubmit ⟨[], "Hi", false, [], false, none⟩ 7 500
          (.ok ⟨"Hi", "An answer", [], "general_analysis", "low", "general"⟩)).1.messages =
         [] ++ [⟨7, .user, "Hi", [], none, none, 7⟩,
           ⟨8, .error, appErrorText, [], none, none, 7⟩])) :=
  ⟨by decide,
   submit_request_lifecycle ⟨[], "Hi", false, [], false, none⟩ 7 500
     (.ok ⟨"Hi", "An answer", [], "general_analysis", "low", "general"⟩)
     (by decide) rfl⟩

end ConvoTrack
